import Mathlib

/-!
Shallow embedding of `studentnumber_easypeasy_web.py` (a Streamlit app that
estimates student counts from a hierarchical table of student-yield rates).

Python dicts are modelled as association lists (`List (String × β)`), with
insertion-order semantics for `setdefault` and in-place assignment.
Python floats are modelled as rationals (`ℚ`); Python's `round` (round half
to even) is `pyRound`.  Session state (`st.session_state`) is the `AppState`
structure; writing a message to a tab and returning early is modelled by
returning the unchanged state together with a `Rejection` value.
-/

set_option autoImplicit false

namespace StudentNumber

/-- A Python dict with string keys, modelled as an association list. -/
abbrev Dict (β : Type) := List (String × β)

/-- Python `d[k]` lookup (as an `Option`): first binding with the given key. -/
def alFind {β : Type} : Dict β → String → Option β
  | [], _ => none
  | (k', v) :: rest, k => if k' = k then some v else alFind rest k

/-- Python `d[k] = v`: overwrite the binding in place if the key is present
(keeping its position), otherwise append a new binding. -/
def alAssign {β : Type} : Dict β → String → β → Dict β
  | [], k, v => [(k, v)]
  | (k', v') :: rest, k, v =>
    if k' = k then (k, v) :: rest else (k', v') :: alAssign rest k v

/-- Python `d.setdefault(k, dflt)` followed by an in-place mutation of the
value at `k`: the value at `k` becomes `f` of the old value (or of `dflt`
when the key was absent). -/
def alUpdate {β : Type} (d : Dict β) (k : String) (dflt : β) (f : β → β) : Dict β :=
  alAssign d k (f ((alFind d k).getD dflt))

/-- A leaf of the yield-rate table: the dict `{"초등": _, "중등": _}`.
Fields are optional because a JSON-loaded dict may lack either key. -/
structure REntry where
  elem : Option ℚ
  mid : Option ℚ
deriving DecidableEq

/-- A leaf of the high-school table: the dict `{"인원": _, "발생률": _}`. -/
structure HEntry where
  personnel : Option ℚ
  occupancy : Option ℚ
deriving DecidableEq

instance {β : Type} [DecidableEq β] : DecidableEq (Dict β) := inferInstance

/-- Python truthiness of the leaf dict: a dict is truthy iff it is non-empty,
i.e. at least one of the two keys the program ever stores is present. -/
def REntry.isTruthy (d : REntry) : Bool := d.elem.isSome || d.mid.isSome

/-- Python truthiness of the high-school leaf dict. -/
def HEntry.isTruthy (d : HEntry) : Bool := d.personnel.isSome || d.occupancy.isSome

/-- The nested mapping `region -> housing_type -> supply_type -> scale -> β`. -/
abbrev Table (β : Type) := Dict (Dict (Dict (Dict β)))

/-- `st.session_state.rates`. -/
abbrev RateTable := Table REntry

/-- `st.session_state.high_school_rates`. -/
abbrev HSTable := Table HEntry

/-- The source's `get_node(data, path, default)` specialised to the 4-level
key path used throughout the program, returning `none` for a missing path. -/
def get_node4 {β : Type} (data : Table β) (r h s sc : String) : Option β :=
  (alFind data r).bind fun d1 =>
    (alFind d1 h).bind fun d2 =>
      (alFind d2 s).bind fun d3 => alFind d3 sc

/-- One row of `st.session_state.calculated_results` (the dict appended at
the end of `calculate_student_counts`). -/
structure EstimationResult where
  city : String
  region : String
  housing_type : String
  subtype : String
  scale : String
  units : ℤ
  kindergarten : ℤ
  elementary : ℤ
  middle : ℤ
  high : ℤ
deriving DecidableEq

/-- The session state: the two rate tables and the accumulated results. -/
structure AppState where
  rates : RateTable
  high_school_rates : HSTable
  calculated_results : List EstimationResult
deriving DecidableEq

/-- The four early-return paths of `calculate_student_counts`, in source
order, each writing a distinct message to the tab. -/
inductive Rejection where
  | incompleteSelection
  | invalidUnits
  | noYieldRate
  | noHighSchoolRate
deriving DecidableEq

/-- The message text the source writes to the tab for each rejection. -/
def rejectionMessage : Rejection → String
  | .incompleteSelection => "❌ 모든 항목을 선택해주세요."
  | .invalidUnits => "⚠️ 세대 수는 1 이상이어야 합니다!"
  | .noYieldRate => "⚠️ 해당 조합의 학생 발생률이 설정되지 않았습니다!"
  | .noHighSchoolRate => "⚠️ 해당 조합의 고등-학생 점유율이 설정되지 않았습니다!"

/-- Python's built-in `round` to an integer: round to the nearest integer,
ties to the even neighbour. -/
def pyRound (q : ℚ) : ℤ :=
  if q - ⌊q⌋ < 1 / 2 then ⌊q⌋
  else if 1 / 2 < q - ⌊q⌋ then ⌊q⌋ + 1
  else if ⌊q⌋ % 2 = 0 then ⌊q⌋ else ⌊q⌋ + 1

/-- The source's `calculate_student_counts`.  Returns the new session state
together with the rejection written to the tab, if any (`none` = success). -/
def calculate_student_counts (s : AppState) (city region housing_type subtype scale : String)
    (units : ℤ) : AppState × Option Rejection :=
  if city = "" ∨ region = "" ∨ housing_type = "" ∨ subtype = "" ∨ scale = "" then
    (s, some Rejection.incompleteSelection)
  else if units ≤ 0 then
    (s, some Rejection.invalidUnits)
  else
    match get_node4 s.rates region housing_type subtype scale with
    | none => (s, some Rejection.noYieldRate)
    | some data =>
      if data.isTruthy = false then (s, some Rejection.noYieldRate)
      else
        match get_node4 s.high_school_rates region housing_type subtype scale with
        | none => (s, some Rejection.noHighSchoolRate)
        | some hsData =>
          if hsData.isTruthy = false then (s, some Rejection.noHighSchoolRate)
          else
            let e_rate := data.elem.getD 0
            let m_rate := data.mid.getD 0
            let hs_personnel := hsData.personnel.getD 0
            let hs_rate := hsData.occupancy.getD 0
            let e := pyRound ((units : ℚ) * e_rate / 100)
            let k := pyRound ((e : ℚ) * 0.5)
            let m := pyRound ((units : ℚ) * m_rate / 100)
            let hcount := pyRound ((units : ℚ) * hs_personnel * hs_rate / 100)
            ({ s with calculated_results := s.calculated_results ++
                [{ city := city, region := region, housing_type := housing_type,
                   subtype := subtype, scale := scale, units := units,
                   kindergarten := k, elementary := e, middle := m, high := hcount }] },
             none)

/-! Basic facts about `pyRound`. -/

theorem pyRound_intCast (z : ℤ) : pyRound (z : ℚ) = z := by
  unfold pyRound
  rw [Int.floor_intCast]
  norm_num

theorem pyRound_zero : pyRound 0 = 0 := by
  simpa using pyRound_intCast 0

/-- `pyRound q` is a nearest integer to `q`. -/
theorem abs_sub_pyRound_le (q : ℚ) : |q - (pyRound q : ℚ)| ≤ 1 / 2 := by
  have h1 : (⌊q⌋ : ℚ) ≤ q := Int.floor_le q
  have h2 : q < ⌊q⌋ + 1 := Int.lt_floor_add_one q
  unfold pyRound
  split_ifs with ha hb hc <;>
    · simp only [not_lt] at *
      rw [abs_le]
      push_cast
      constructor <;> linarith

/-- Master evaluation lemma: with a complete selection, positive units and
truthy entries at the key path, `calculate_student_counts` succeeds and
appends the result computed by the source's four formulas. -/
theorem calc_success_eq (s : AppState) (city region housing_type subtype scale : String)
    (units : ℤ) (en : REntry) (hn : HEntry)
    (hCity : city ≠ "") (hRegion : region ≠ "") (hType : housing_type ≠ "")
    (hSub : subtype ≠ "") (hScale : scale ≠ "") (hUnits : 0 < units)
    (hRate : get_node4 s.rates region housing_type subtype scale = some en)
    (hTr : en.isTruthy = true)
    (hHS : get_node4 s.high_school_rates region housing_type subtype scale = some hn)
    (hTr2 : hn.isTruthy = true) :
    calculate_student_counts s city region housing_type subtype scale units =
      ({ s with calculated_results := s.calculated_results ++
          [{ city := city, region := region, housing_type := housing_type,
             subtype := subtype, scale := scale, units := units,
             kindergarten := pyRound ((pyRound ((units : ℚ) * en.elem.getD 0 / 100) : ℚ) * 0.5),
             elementary := pyRound ((units : ℚ) * en.elem.getD 0 / 100),
             middle := pyRound ((units : ℚ) * en.mid.getD 0 / 100),
             high := pyRound ((units : ℚ) * hn.personnel.getD 0 * hn.occupancy.getD 0 / 100) }] },
       none) := by
  unfold calculate_student_counts
  rw [if_neg (by simp [hCity, hRegion, hType, hSub, hScale]),
    if_neg (by omega), hRate]
  simp only [hTr, hHS, hTr2, Bool.true_eq_false, if_false]

/-- The rate tables of the worked example of the spec: the key path
(서울 강남구, 아파트, 분양, 84㎡) with elementary rate 12.50, middle rate 6.00,
per-unit headcount 0.80 and occupancy rate 15.00, and no prior results. -/
def exampleState : AppState :=
  { rates := [("서울 강남구", [("아파트", [("분양", [("84㎡", ⟨some 12.5, some 6⟩)])])])],
    high_school_rates :=
      [("서울 강남구", [("아파트", [("분양", [("84㎡", ⟨some 0.8, some 15⟩)])])])],
    calculated_results := [] }

/-- C1: for every configured key path (complete selection, both leaf entries
present with their rate fields) and every unit count > 0, the estimator
computes elementary = round(units*elementary_rate/100), kindergarten =
round(elementary*0.5) from the already-rounded elementary figure, middle =
round(units*middle_rate/100) and high =
round(units*per_unit_headcount*occupancy_rate/100), each eagerly rounded to
a nearest whole integer. -/
theorem c1_estimator_formulas (s : AppState)
    (city region housing_type subtype scale : String)
    (units : ℤ) (er mr hp ho : ℚ)
    (hCity : city ≠ "") (hRegion : region ≠ "") (hType : housing_type ≠ "")
    (hSub : subtype ≠ "") (hScale : scale ≠ "") (hUnits : 0 < units)
    (hRate : get_node4 s.rates region housing_type subtype scale = some ⟨some er, some mr⟩)
    (hHS : get_node4 s.high_school_rates region housing_type subtype scale =
      some ⟨some hp, some ho⟩) :
    calculate_student_counts s city region housing_type subtype scale units =
      ({ s with calculated_results := s.calculated_results ++
          [{ city := city, region := region, housing_type := housing_type,
             subtype := subtype, scale := scale, units := units,
             kindergarten := pyRound ((pyRound ((units : ℚ) * er / 100) : ℚ) * 0.5),
             elementary := pyRound ((units : ℚ) * er / 100),
             middle := pyRound ((units : ℚ) * mr / 100),
             high := pyRound ((units : ℚ) * hp * ho / 100) }] },
       none) ∧
    |(units : ℚ) * er / 100 - (pyRound ((units : ℚ) * er / 100) : ℚ)| ≤ 1 / 2 ∧
    |(pyRound ((units : ℚ) * er / 100) : ℚ) * 0.5 -
        (pyRound ((pyRound ((units : ℚ) * er / 100) : ℚ) * 0.5) : ℚ)| ≤ 1 / 2 ∧
    |(units : ℚ) * mr / 100 - (pyRound ((units : ℚ) * mr / 100) : ℚ)| ≤ 1 / 2 ∧
    |(units : ℚ) * hp * ho / 100 - (pyRound ((units : ℚ) * hp * ho / 100) : ℚ)| ≤ 1 / 2 := by
  refine ⟨?_, abs_sub_pyRound_le _, abs_sub_pyRound_le _, abs_sub_pyRound_le _,
    abs_sub_pyRound_le _⟩
  simpa using calc_success_eq s city region housing_type subtype scale units
    ⟨some er, some mr⟩ ⟨some hp, some ho⟩ hCity hRegion hType hSub hScale hUnits
    hRate rfl hHS rfl

/-- Witness for C1 at the spec's worked example. -/
theorem c1_estimator_formulas_witness :
    calculate_student_counts exampleState "서울" "서울 강남구" "아파트" "분양" "84㎡" 100 =
      ({ exampleState with calculated_results :=
          [{ city := "서울", region := "서울 강남구", housing_type := "아파트",
             subtype := "분양", scale := "84㎡", units := 100,
             kindergarten := pyRound ((pyRound ((100 : ℚ) * 12.5 / 100) : ℚ) * 0.5),
             elementary := pyRound ((100 : ℚ) * 12.5 / 100),
             middle := pyRound ((100 : ℚ) * 6 / 100),
             high := pyRound ((100 : ℚ) * 0.8 * 15 / 100) }] },
       none) :=
  ((c1_estimator_formulas exampleState "서울" "서울 강남구" "아파트" "분양" "84㎡" 100
    12.5 6 0.8 15 (by decide) (by decide) (by decide) (by decide) (by decide)
    (by decide) rfl rfl).1).trans (by simp [exampleState])

/-- C2 counterexample: at the spec's worked example the code computes
elementary = 12, not 13, because Python's `round` sends the tie 12.5 to the
even integer 12 (`round(100 * 12.50 / 100) = round(12.5) = 12`). -/
theorem c2_example_counterexample :
    calculate_student_counts exampleState "서울" "서울 강남구" "아파트" "분양" "84㎡" 100 =
      ({ exampleState with calculated_results :=
          [{ city := "서울", region := "서울 강남구", housing_type := "아파트",
             subtype := "분양", scale := "84㎡", units := 100,
             kindergarten := 6, elementary := 12, middle := 6, high := 12 }] },
       none) ∧ (12 : ℤ) ≠ 13 := by
  constructor
  · simp [calculate_student_counts, exampleState, get_node4, alFind,
      REntry.isTruthy, HEntry.isTruthy]
    norm_num [pyRound, Int.fract]
  · decide

/-- C2 amended: for the spec's worked example the estimator returns
elementary = 12 (round-half-to-even of 12.5), kindergarten = 6, middle = 6,
high = 12. -/
theorem c2_example_amended :
    calculate_student_counts exampleState "서울" "서울 강남구" "아파트" "분양" "84㎡" 100 =
      ({ exampleState with calculated_results :=
          [{ city := "서울", region := "서울 강남구", housing_type := "아파트",
             subtype := "분양", scale := "84㎡", units := 100,
             kindergarten := 6, elementary := 12, middle := 6, high := 12 }] },
       none) := by
  simp [calculate_student_counts, exampleState, get_node4, alFind,
    REntry.isTruthy, HEntry.isTruthy]
  norm_num [pyRound, Int.fract]

/-- C4: the estimator's four preconditions are checked in source order, each
rejection carries its own distinct message, any rejected call returns the
session state unchanged (nothing appended, tables untouched), and a
successful call changes neither rate table and appends exactly one result. -/
theorem c4_precondition_order (s : AppState)
    (city region housing_type subtype scale : String) (units : ℤ) :
    ((city = "" ∨ region = "" ∨ housing_type = "" ∨ subtype = "" ∨ scale = "") →
      calculate_student_counts s city region housing_type subtype scale units =
        (s, some Rejection.incompleteSelection)) ∧
    (¬(city = "" ∨ region = "" ∨ housing_type = "" ∨ subtype = "" ∨ scale = "") →
      units ≤ 0 →
      calculate_student_counts s city region housing_type subtype scale units =
        (s, some Rejection.invalidUnits)) ∧
    (¬(city = "" ∨ region = "" ∨ housing_type = "" ∨ subtype = "" ∨ scale = "") →
      0 < units →
      (∀ d, get_node4 s.rates region housing_type subtype scale = some d →
        d.isTruthy = false) →
      calculate_student_counts s city region housing_type subtype scale units =
        (s, some Rejection.noYieldRate)) ∧
    (¬(city = "" ∨ region = "" ∨ housing_type = "" ∨ subtype = "" ∨ scale = "") →
      0 < units →
      ∀ d, get_node4 s.rates region housing_type subtype scale = some d →
      d.isTruthy = true →
      (∀ hd, get_node4 s.high_school_rates region housing_type subtype scale = some hd →
        hd.isTruthy = false) →
      calculate_student_counts s city region housing_type subtype scale units =
        (s, some Rejection.noHighSchoolRate)) ∧
    (∀ r, (calculate_student_counts s city region housing_type subtype scale units).2 =
        some r →
      (calculate_student_counts s city region housing_type subtype scale units).1 = s) ∧
    ((calculate_student_counts s city region housing_type subtype scale units).2 = none →
      (calculate_student_counts s city region housing_type subtype scale units).1.rates =
        s.rates ∧
      (calculate_student_counts s city region housing_type subtype
        scale units).1.high_school_rates = s.high_school_rates ∧
      ∃ res, (calculate_student_counts s city region housing_type subtype
        scale units).1.calculated_results = s.calculated_results ++ [res]) ∧
    (∀ r1 r2 : Rejection, r1 ≠ r2 → rejectionMessage r1 ≠ rejectionMessage r2) := by
  have hcases : (∃ r, calculate_student_counts s city region housing_type subtype scale
        units = (s, some r)) ∨
      (∃ res, calculate_student_counts s city region housing_type subtype scale units =
        ({ s with calculated_results := s.calculated_results ++ [res] }, none)) := by
    unfold calculate_student_counts
    split_ifs with h1 h2
    · exact Or.inl ⟨_, rfl⟩
    · exact Or.inl ⟨_, rfl⟩
    · cases hg : get_node4 s.rates region housing_type subtype scale with
      | none => simp only [hg]; exact Or.inl ⟨_, rfl⟩
      | some d =>
        simp only [hg]
        split_ifs with h3
        · exact Or.inl ⟨_, rfl⟩
        · cases hh : get_node4 s.high_school_rates region housing_type subtype scale with
          | none => simp only [hh]; exact Or.inl ⟨_, rfl⟩
          | some hd =>
            simp only [hh]
            split_ifs with h4
            · exact Or.inl ⟨_, rfl⟩
            · exact Or.inr ⟨_, rfl⟩
  refine ⟨?_, ?_, ?_, ?_, ?_, ?_, ?_⟩
  · intro h
    unfold calculate_student_counts
    rw [if_pos h]
  · intro h hu
    unfold calculate_student_counts
    rw [if_neg h, if_pos hu]
  · intro h hu hfalsy
    unfold calculate_student_counts
    rw [if_neg h, if_neg (by omega)]
    cases hg : get_node4 s.rates region housing_type subtype scale with
    | none => simp only [hg]
    | some d => simp only [hg, hfalsy d hg, if_true]
  · intro h hu d hd hdt hfalsy
    unfold calculate_student_counts
    rw [if_neg h, if_neg (by omega)]
    simp only [hd, hdt, Bool.true_eq_false, if_false]
    cases hh : get_node4 s.high_school_rates region housing_type subtype scale with
    | none => simp only [hh]
    | some hsd => simp only [hh, hfalsy hsd hh, if_true]
  · intro r hr
    rcases hcases with ⟨r', he⟩ | ⟨res, he⟩
    · rw [he]
    · rw [he] at hr
      exact absurd hr (by simp)
  · intro hn
    rcases hcases with ⟨r', he⟩ | ⟨res, he⟩
    · rw [he] at hn
      exact absurd hn (by simp)
    · rw [he]
      exact ⟨rfl, rfl, res, rfl⟩
  · intro r1 r2 hne
    cases r1 <;> cases r2 <;> simp_all [rejectionMessage]

/-- Witness for C4: the empty selection is rejected as "incomplete selection"
and leaves the example session state unchanged. -/
theorem c4_precondition_order_witness :
    calculate_student_counts exampleState "" "서울 강남구" "아파트" "분양" "84㎡" 100 =
      (exampleState, some Rejection.incompleteSelection) :=
  (c4_precondition_order exampleState "" "서울 강남구" "아파트" "분양" "84㎡" 100).1
    (Or.inl rfl)

/-- C10: when a truthy entry is stored at the key path but one of the four
rate fields is absent, the estimator does not reject; the missing field is
read as 0 by `.get(_, 0)` and the corresponding student counts are 0. -/
theorem c10_missing_field_defaults (s : AppState)
    (city region housing_type subtype scale : String)
    (units : ℤ) (en : REntry) (hn : HEntry)
    (hCity : city ≠ "") (hRegion : region ≠ "") (hType : housing_type ≠ "")
    (hSub : subtype ≠ "") (hScale : scale ≠ "") (hUnits : 0 < units)
    (hRate : get_node4 s.rates region housing_type subtype scale = some en)
    (hTr : en.isTruthy = true)
    (hHS : get_node4 s.high_school_rates region housing_type subtype scale = some hn)
    (hTr2 : hn.isTruthy = true) :
    calculate_student_counts s city region housing_type subtype scale units =
      ({ s with calculated_results := s.calculated_results ++
          [{ city := city, region := region, housing_type := housing_type,
             subtype := subtype, scale := scale, units := units,
             kindergarten := pyRound ((pyRound ((units : ℚ) * en.elem.getD 0 / 100) : ℚ) * 0.5),
             elementary := pyRound ((units : ℚ) * en.elem.getD 0 / 100),
             middle := pyRound ((units : ℚ) * en.mid.getD 0 / 100),
             high := pyRound ((units : ℚ) * hn.personnel.getD 0 * hn.occupancy.getD 0 / 100) }] },
       none) ∧
    (en.elem = none → pyRound ((units : ℚ) * en.elem.getD 0 / 100) = 0 ∧
      pyRound ((pyRound ((units : ℚ) * en.elem.getD 0 / 100) : ℚ) * 0.5) = 0) ∧
    (en.mid = none → pyRound ((units : ℚ) * en.mid.getD 0 / 100) = 0) ∧
    (hn.personnel = none ∨ hn.occupancy = none →
      pyRound ((units : ℚ) * hn.personnel.getD 0 * hn.occupancy.getD 0 / 100) = 0) := by
  refine ⟨calc_success_eq s city region housing_type subtype scale units en hn
    hCity hRegion hType hSub hScale hUnits hRate hTr hHS hTr2, ?_, ?_, ?_⟩
  · intro he
    have h0 : pyRound ((units : ℚ) * en.elem.getD 0 / 100) = 0 := by
      simp [he, pyRound_zero]
    refine ⟨h0, ?_⟩
    rw [h0]
    simpa using pyRound_zero
  · intro hm
    simp [hm, pyRound_zero]
  · rintro (hp | ho)
    · simp [hp, pyRound_zero]
    · simp [ho, pyRound_zero]

/-- State for the C10 witness: the stored entry at the key path lacks the
elementary-rate field and the occupancy-rate field. -/
def partialState : AppState :=
  { rates := [("서울 강남구", [("아파트", [("분양", [("84㎡", ⟨none, some 6⟩)])])])],
    high_school_rates :=
      [("서울 강남구", [("아파트", [("분양", [("84㎡", ⟨some 0.8, none⟩)])])])],
    calculated_results := [] }

/-- Witness for C10: with the elementary field missing, elementary and
kindergarten compute to 0; with the occupancy field missing, high computes
to 0; the call is not rejected. -/
theorem c10_missing_field_defaults_witness :
    calculate_student_counts partialState "서울" "서울 강남구" "아파트" "분양" "84㎡" 100 =
      ({ partialState with calculated_results :=
          [{ city := "서울", region := "서울 강남구", housing_type := "아파트",
             subtype := "분양", scale := "84㎡", units := 100,
             kindergarten := 0, elementary := 0,
             middle := pyRound ((100 : ℚ) * 6 / 100), high := 0 }] },
       none) := by
  have h := c10_missing_field_defaults partialState "서울" "서울 강남구" "아파트" "분양"
    "84㎡" 100 ⟨none, some 6⟩ ⟨some 0.8, none⟩ (by decide) (by decide) (by decide)
    (by decide) (by decide) (by decide) rfl rfl rfl rfl
  rw [h.1]
  have he := h.2.1 rfl
  have hh := h.2.2.2 (Or.inr rfl)
  simp only [partialState, he.1, he.2, hh]
  simp [pyRound_zero]

/-! The Excel import (`process_excel`) and its building blocks. -/

/-- Python `round(x, 2)`: round to 2 decimal places, ties to even. -/
def round2 (q : ℚ) : ℚ := (pyRound (q * 100) : ℚ) / 100

/-- One data row of the uploaded spreadsheet, after the source's `str` and
`float` conversions.  The two high-school cells are `none` when the cell is
NaN/blank (the source's `pd.notna`/empty-string test). -/
structure XRow where
  city : String
  region : String
  housing_type : String
  subtype : String
  scale : String
  elem : ℚ
  mid : ℚ
  hs_personnel : Option ℚ
  hs_occupancy : Option ℚ
deriving DecidableEq

/-- The source's `required_cols` set: all nine column names. -/
def required_cols : List String :=
  ["시", "지역", "주택유형", "공급유형", "주택규모", "초등", "중등",
   "고등-세대당 인구수", "고등-학생 점유율"]

/-- The column names enumerated in the source's missing-column error message
(the message lists the full required set verbatim). -/
def import_error_named_cols : List String :=
  ["시", "지역", "주택유형", "공급유형", "주택규모", "초등", "중등",
   "고등-세대당 인구수", "고등-학생 점유율"]

/-- The source's `full_region = f"{city} {r}"`. -/
def full_region (row : XRow) : String := row.city ++ " " ++ row.region

/-- The nested `setdefault` chain of `process_excel`: store `v` at the
4-level key path, creating intermediate dicts as needed and overwriting any
existing leaf. -/
def setLeaf {β : Type} (t : Table β) (r h s sc : String) (v : β) : Table β :=
  alUpdate t r [] fun d1 =>
    alUpdate d1 h [] fun d2 =>
      alUpdate d2 s [] fun d3 => alAssign d3 sc v

/-- One row's effect on the new yield-rate table being built. -/
def insertRow (t : RateTable) (row : XRow) : RateTable :=
  setLeaf t (full_region row) row.housing_type row.subtype row.scale
    ⟨some (round2 row.elem), some (round2 row.mid)⟩

/-- One row's effect on the new high-school table being built: skipped
entirely when either high-school cell is blank. -/
def insertHSRow (t : HSTable) (row : XRow) : HSTable :=
  match row.hs_personnel, row.hs_occupancy with
  | some p, some o =>
    setLeaf t (full_region row) row.housing_type row.subtype row.scale
      ⟨some (round2 p), some (round2 o)⟩
  | _, _ => t

/-- The `new_rates` dict built by `process_excel`'s row loop. -/
def buildRates (rows : List XRow) : RateTable := rows.foldl insertRow []

/-- The `new_high_school_rates` dict built by `process_excel`'s row loop. -/
def buildHS (rows : List XRow) : HSTable := rows.foldl insertHSRow []

/-- Outcome of `process_excel`: the missing-column error, or success with
the reported processed-row count (`len(df)`). -/
inductive ImportOutcome where
  | colError
  | ok (n : ℕ)
deriving DecidableEq

/-- The source's `process_excel`: reject unless every required column is in
the header, otherwise replace both session tables wholesale with the tables
built from the rows and report the row count. -/
def process_excel (cols : List String) (rows : List XRow) (s : AppState) :
    AppState × ImportOutcome :=
  if required_cols.all fun c => decide (c ∈ cols) then
    ({ s with rates := buildRates rows, high_school_rates := buildHS rows },
     ImportOutcome.ok rows.length)
  else
    (s, ImportOutcome.colError)

/-! Lookup/assignment lemmas for the association-list dictionaries. -/

theorem alFind_alAssign_self {β : Type} (d : Dict β) (k : String) (v : β) :
    alFind (alAssign d k v) k = some v := by
  induction d with
  | nil => simp [alAssign, alFind]
  | cons p rest ih =>
    obtain ⟨k', v'⟩ := p
    by_cases h : k' = k
    · simp [alAssign, h, alFind]
    · simp [alAssign, h, alFind, ih]

theorem alFind_alAssign_ne {β : Type} (d : Dict β) (k k' : String) (v : β)
    (hne : k' ≠ k) : alFind (alAssign d k v) k' = alFind d k' := by
  induction d with
  | nil => simp [alAssign, alFind, Ne.symm hne]
  | cons p rest ih =>
    obtain ⟨k'', v''⟩ := p
    by_cases h : k'' = k
    · subst h
      simp [alAssign, alFind, Ne.symm hne]
    · simp only [alAssign, if_neg h, alFind]
      by_cases h2 : k'' = k'
      · simp [h2]
      · simp [h2, ih]

theorem alFind_mem {β : Type} {d : Dict β} {k : String} {v : β}
    (h : alFind d k = some v) : (k, v) ∈ d := by
  induction d with
  | nil => simp [alFind] at h
  | cons p rest ih =>
    obtain ⟨k', v'⟩ := p
    by_cases he : k' = k
    · subst he
      simp [alFind] at h
      simp [h]
    · simp [alFind, he] at h
      simp [ih h]

theorem mem_of_mem_alAssign {β : Type} {d : Dict β} {k : String} {v : β}
    {x : String × β} (h : x ∈ alAssign d k v) : x = (k, v) ∨ x ∈ d := by
  induction d with
  | nil => simpa [alAssign] using h
  | cons p rest ih =>
    obtain ⟨k', v'⟩ := p
    by_cases he : k' = k
    · subst he
      simp [alAssign] at h
      rcases h with h | h
      · exact Or.inl (by simp [h])
      · exact Or.inr (by simp [h])
    · simp [alAssign, he] at h
      rcases h with h | h
      · exact Or.inr (by simp [h])
      · rcases ih h with h2 | h2
        · exact Or.inl h2
        · exact Or.inr (by simp [h2])

/-- Folding a lookup through a `getD []` default dict. -/
theorem alFind_getD_bind {β : Type} (o : Option (Dict β)) (k : String) :
    alFind (o.getD []) k = o.bind fun d => alFind d k := by
  cases o <;> simp [alFind]

theorem get_node4_setLeaf_self {β : Type} (t : Table β) (R H S SC : String) (v : β) :
    get_node4 (setLeaf t R H S SC v) R H S SC = some v := by
  simp [setLeaf, alUpdate, get_node4, alFind_alAssign_self]

theorem get_node4_setLeaf_ne {β : Type} (t : Table β) (R H S SC r h s sc : String)
    (v : β) (hne : ¬(r = R ∧ h = H ∧ s = S ∧ sc = SC)) :
    get_node4 (setLeaf t R H S SC v) r h s sc = get_node4 t r h s sc := by
  by_cases hr : r = R
  · subst hr
    by_cases hh : h = H
    · subst hh
      by_cases hs : s = S
      · subst hs
        have hsc : sc ≠ SC := by tauto
        simp [setLeaf, alUpdate, get_node4, alFind_alAssign_self,
          alFind_alAssign_ne _ _ _ _ hsc, alFind_getD_bind, Option.bind_assoc]
      · simp [setLeaf, alUpdate, get_node4, alFind_alAssign_self,
          alFind_alAssign_ne _ _ _ _ hs, alFind_getD_bind, Option.bind_assoc]
    · simp [setLeaf, alUpdate, get_node4, alFind_alAssign_self,
        alFind_alAssign_ne _ _ _ _ hh, alFind_getD_bind, Option.bind_assoc]
  · simp [setLeaf, alUpdate, get_node4, alFind_alAssign_ne _ _ _ _ hr]

theorem get_node4_nil {β : Type} (r h s sc : String) :
    get_node4 ([] : Table β) r h s sc = none := by
  simp [get_node4, alFind]

theorem insertHSRow_skip {t : HSTable} {row : XRow}
    (h : row.hs_personnel = none ∨ row.hs_occupancy = none) :
    insertHSRow t row = t := by
  unfold insertHSRow
  rcases h with h | h <;> rw [h] <;> cases row.hs_personnel <;> rfl

theorem insertHSRow_set {t : HSTable} {row : XRow} {p o : ℚ}
    (hp : row.hs_personnel = some p) (ho : row.hs_occupancy = some o) :
    insertHSRow t row =
      setLeaf t (full_region row) row.housing_type row.subtype row.scale
        ⟨some (round2 p), some (round2 o)⟩ := by
  unfold insertHSRow
  rw [hp, ho]

/-- Any leaf found after the rate-building fold is either the 2-decimal
rounding of some processed row at that key, or was already in the start
table. -/
theorem foldl_insertRow_lookup_some (rows : List XRow) :
    ∀ (t : RateTable) (r h s sc : String) (v : REntry),
      get_node4 (rows.foldl insertRow t) r h s sc = some v →
      (∃ row ∈ rows, full_region row = r ∧ row.housing_type = h ∧
        row.subtype = s ∧ row.scale = sc ∧
        v = ⟨some (round2 row.elem), some (round2 row.mid)⟩) ∨
      get_node4 t r h s sc = some v := by
  induction rows with
  | nil => exact fun t r h s sc v hv => Or.inr hv
  | cons row rest ih =>
    intro t r h s sc v hv
    rw [List.foldl_cons] at hv
    rcases ih _ _ _ _ _ _ hv with ⟨row', hm, hk⟩ | hbase
    · exact Or.inl ⟨row', List.mem_cons_of_mem _ hm, hk⟩
    · by_cases hkey : r = full_region row ∧ h = row.housing_type ∧
        s = row.subtype ∧ sc = row.scale
      · obtain ⟨h1, h2, h3, h4⟩ := hkey
        subst h1; subst h2; subst h3; subst h4
        rw [insertRow, get_node4_setLeaf_self] at hbase
        exact Or.inl ⟨row, List.mem_cons_self _ _,
          rfl, rfl, rfl, rfl, (Option.some_injective _ hbase).symm⟩
      · rw [insertRow, get_node4_setLeaf_ne _ _ _ _ _ _ _ _ _ _ hkey] at hbase
        exact Or.inr hbase

theorem foldl_insertHSRow_lookup_some (rows : List XRow) :
    ∀ (t : HSTable) (r h s sc : String) (v : HEntry),
      get_node4 (rows.foldl insertHSRow t) r h s sc = some v →
      (∃ row ∈ rows, full_region row = r ∧ row.housing_type = h ∧
        row.subtype = s ∧ row.scale = sc ∧ ∃ p o : ℚ,
        row.hs_personnel = some p ∧ row.hs_occupancy = some o ∧
        v = ⟨some (round2 p), some (round2 o)⟩) ∨
      get_node4 t r h s sc = some v := by
  induction rows with
  | nil => exact fun t r h s sc v hv => Or.inr hv
  | cons row rest ih =>
    intro t r h s sc v hv
    rw [List.foldl_cons] at hv
    rcases ih _ _ _ _ _ _ hv with ⟨row', hm, hk⟩ | hbase
    · exact Or.inl ⟨row', List.mem_cons_of_mem _ hm, hk⟩
    · cases hp : row.hs_personnel with
      | none =>
        rw [insertHSRow_skip (Or.inl hp)] at hbase
        exact Or.inr hbase
      | some p =>
        cases ho : row.hs_occupancy with
        | none =>
          rw [insertHSRow_skip (Or.inr ho)] at hbase
          exact Or.inr hbase
        | some o =>
          rw [insertHSRow_set hp ho] at hbase
          by_cases hkey : r = full_region row ∧ h = row.housing_type ∧
            s = row.subtype ∧ sc = row.scale
          · obtain ⟨h1, h2, h3, h4⟩ := hkey
            subst h1; subst h2; subst h3; subst h4
            rw [get_node4_setLeaf_self] at hbase
            exact Or.inl ⟨row, List.mem_cons_self _ _, rfl, rfl, rfl, rfl,
              p, o, hp, ho, (Option.some_injective _ hbase).symm⟩
          · rw [get_node4_setLeaf_ne _ _ _ _ _ _ _ _ _ _ hkey] at hbase
            exact Or.inr hbase

theorem insertRow_preserves_isSome {t : RateTable} {row : XRow} {r h s sc : String}
    (hv : (get_node4 t r h s sc).isSome = true) :
    (get_node4 (insertRow t row) r h s sc).isSome = true := by
  by_cases hkey : r = full_region row ∧ h = row.housing_type ∧
    s = row.subtype ∧ sc = row.scale
  · obtain ⟨h1, h2, h3, h4⟩ := hkey
    subst h1; subst h2; subst h3; subst h4
    rw [insertRow, get_node4_setLeaf_self]
    rfl
  · rw [insertRow, get_node4_setLeaf_ne _ _ _ _ _ _ _ _ _ _ hkey]
    exact hv

theorem insertHSRow_preserves_isSome {t : HSTable} {row : XRow} {r h s sc : String}
    (hv : (get_node4 t r h s sc).isSome = true) :
    (get_node4 (insertHSRow t row) r h s sc).isSome = true := by
  cases hp : row.hs_personnel with
  | none => rw [insertHSRow_skip (Or.inl hp)]; exact hv
  | some p =>
    cases ho : row.hs_occupancy with
    | none => rw [insertHSRow_skip (Or.inr ho)]; exact hv
    | some o =>
      rw [insertHSRow_set hp ho]
      by_cases hkey : r = full_region row ∧ h = row.housing_type ∧
        s = row.subtype ∧ sc = row.scale
      · obtain ⟨h1, h2, h3, h4⟩ := hkey
        subst h1; subst h2; subst h3; subst h4
        rw [get_node4_setLeaf_self]
        rfl
      · rw [get_node4_setLeaf_ne _ _ _ _ _ _ _ _ _ _ hkey]
        exact hv

theorem foldl_insertRow_preserves_isSome (rows : List XRow) :
    ∀ (t : RateTable) (r h s sc : String),
      (get_node4 t r h s sc).isSome = true →
      (get_node4 (rows.foldl insertRow t) r h s sc).isSome = true := by
  induction rows with
  | nil => exact fun t r h s sc hv => hv
  | cons row rest ih =>
    intro t r h s sc hv
    rw [List.foldl_cons]
    exact ih _ _ _ _ _ (insertRow_preserves_isSome hv)

theorem foldl_insertHSRow_preserves_isSome (rows : List XRow) :
    ∀ (t : HSTable) (r h s sc : String),
      (get_node4 t r h s sc).isSome = true →
      (get_node4 (rows.foldl insertHSRow t) r h s sc).isSome = true := by
  induction rows with
  | nil => exact fun t r h s sc hv => hv
  | cons row rest ih =>
    intro t r h s sc hv
    rw [List.foldl_cons]
    exact ih _ _ _ _ _ (insertHSRow_preserves_isSome hv)

theorem foldl_insertRow_isSome_of_mem {rows : List XRow} {row : XRow}
    (hm : row ∈ rows) :
    ∀ t : RateTable,
      (get_node4 (rows.foldl insertRow t) (full_region row) row.housing_type
        row.subtype row.scale).isSome = true := by
  induction rows with
  | nil => cases hm
  | cons row' rest ih =>
    intro t
    rw [List.foldl_cons]
    rcases List.mem_cons.mp hm with he | hm'
    · subst he
      refine foldl_insertRow_preserves_isSome rest _ _ _ _ _ ?_
      rw [insertRow, get_node4_setLeaf_self]
      rfl
    · exact ih hm' _

theorem foldl_insertHSRow_isSome_of_mem {rows : List XRow} {row : XRow} {p o : ℚ}
    (hm : row ∈ rows) (hp : row.hs_personnel = some p) (ho : row.hs_occupancy = some o) :
    ∀ t : HSTable,
      (get_node4 (rows.foldl insertHSRow t) (full_region row) row.housing_type
        row.subtype row.scale).isSome = true := by
  induction rows with
  | nil => cases hm
  | cons row' rest ih =>
    intro t
    rw [List.foldl_cons]
    rcases List.mem_cons.mp hm with he | hm'
    · subst he
      refine foldl_insertHSRow_preserves_isSome rest _ _ _ _ _ ?_
      rw [insertHSRow_set hp ho, get_node4_setLeaf_self]
      rfl
    · exact ih hm' _

theorem foldl_insertHSRow_skip_all {rows : List XRow}
    (hrows : ∀ row ∈ rows, row.hs_personnel = none ∨ row.hs_occupancy = none) :
    ∀ t : HSTable, rows.foldl insertHSRow t = t := by
  induction rows with
  | nil => exact fun t => rfl
  | cons row rest ih =>
    intro t
    rw [List.foldl_cons, insertHSRow_skip (hrows row (List.mem_cons_self _ _))]
    exact ih (fun r hr => hrows r (List.mem_cons_of_mem _ hr)) t

/-- C5: a successful import replaces both tables wholesale.  After importing
`rowsB` (over any prior state, e.g. one just built from `rowsA`), a key path
is queryable in the rate table iff some row of `rowsB` has that key, and in
the high-school table iff such a row also carries both high-school cells;
prior content plays no role. -/
theorem c5_import_replaces (cols : List String) (s : AppState)
    (rowsA rowsB : List XRow) (r h sTy sc : String)
    (hcA : (required_cols.all fun c => decide (c ∈ cols)) = true)
    (hcB : (required_cols.all fun c => decide (c ∈ cols)) = true) :
    (process_excel cols rowsB (process_excel cols rowsA s).1).1.rates =
      buildRates rowsB ∧
    (process_excel cols rowsB (process_excel cols rowsA s).1).1.high_school_rates =
      buildHS rowsB ∧
    ((get_node4 (process_excel cols rowsB
        (process_excel cols rowsA s).1).1.rates r h sTy sc).isSome = true ↔
      ∃ row ∈ rowsB, full_region row = r ∧ row.housing_type = h ∧
        row.subtype = sTy ∧ row.scale = sc) ∧
    ((get_node4 (process_excel cols rowsB
        (process_excel cols rowsA s).1).1.high_school_rates r h sTy sc).isSome = true ↔
      ∃ row ∈ rowsB, full_region row = r ∧ row.housing_type = h ∧
        row.subtype = sTy ∧ row.scale = sc ∧
        row.hs_personnel.isSome = true ∧ row.hs_occupancy.isSome = true) := by
  have hrates : (process_excel cols rowsB
      (process_excel cols rowsA s).1).1.rates = buildRates rowsB := by
    simp [process_excel, hcB]
  have hhs : (process_excel cols rowsB
      (process_excel cols rowsA s).1).1.high_school_rates = buildHS rowsB := by
    simp [process_excel, hcB]
  refine ⟨hrates, hhs, ?_, ?_⟩
  · rw [hrates]
    constructor
    · intro hv
      obtain ⟨v, hv⟩ := Option.isSome_iff_exists.mp hv
      rcases foldl_insertRow_lookup_some rowsB [] r h sTy sc v hv with
        ⟨row, hm, h1, h2, h3, h4, _⟩ | hbase
      · exact ⟨row, hm, h1, h2, h3, h4⟩
      · rw [get_node4_nil] at hbase
        cases hbase
    · rintro ⟨row, hm, h1, h2, h3, h4⟩
      subst h1; subst h2; subst h3; subst h4
      exact foldl_insertRow_isSome_of_mem hm []
  · rw [hhs]
    constructor
    · intro hv
      obtain ⟨v, hv⟩ := Option.isSome_iff_exists.mp hv
      rcases foldl_insertHSRow_lookup_some rowsB [] r h sTy sc v hv with
        ⟨row, hm, h1, h2, h3, h4, p, o, hp, ho, _⟩ | hbase
      · exact ⟨row, hm, h1, h2, h3, h4, by simp [hp], by simp [ho]⟩
      · rw [get_node4_nil] at hbase
        cases hbase
    · rintro ⟨row, hm, h1, h2, h3, h4, hp, ho⟩
      subst h1; subst h2; subst h3; subst h4
      obtain ⟨p, hp⟩ := Option.isSome_iff_exists.mp hp
      obtain ⟨o, ho⟩ := Option.isSome_iff_exists.mp ho
      exact foldl_insertHSRow_isSome_of_mem hm hp ho []

/-- A sample import row whose key is (서울 강남구, 아파트, 분양, 84㎡). -/
def rowA : XRow :=
  ⟨"서울", "강남구", "아파트", "분양", "84㎡", 12.5, 6, some 0.8, some 15⟩

/-- A sample import row whose key is (부산 해운대구, 아파트, 임대, 59㎡). -/
def rowB : XRow :=
  ⟨"부산", "해운대구", "아파트", "임대", "59㎡", 10, 5, some 0.7, some 12⟩

/-- Witness for C5: after importing table B over table A, the combination
configured only by A is no longer queryable. -/
theorem c5_import_replaces_witness :
    (get_node4 (process_excel required_cols [rowB]
      (process_excel required_cols [rowA] exampleState).1).1.rates
      "서울 강남구" "아파트" "분양" "84㎡").isSome = false := by
  have h := c5_import_replaces required_cols exampleState [rowA] [rowB]
    "서울 강남구" "아파트" "분양" "84㎡" (by decide) (by decide)
  rw [Bool.eq_false_iff]
  intro htrue
  exact absurd (h.2.2.1.mp htrue) (by decide)

theorem foldl_insertRow_no_key {post : List XRow} {r h s sc : String}
    (hno : ∀ r' ∈ post, ¬(full_region r' = r ∧ r'.housing_type = h ∧
      r'.subtype = s ∧ r'.scale = sc)) :
    ∀ t : RateTable, get_node4 (post.foldl insertRow t) r h s sc =
      get_node4 t r h s sc := by
  induction post with
  | nil => exact fun t => rfl
  | cons r' rest ih =>
    intro t
    rw [List.foldl_cons, ih fun x hx => hno x (List.mem_cons_of_mem _ hx),
      insertRow, get_node4_setLeaf_ne]
    rintro ⟨h1, h2, h3, h4⟩
    exact hno r' (List.mem_cons_self _ _) ⟨h1.symm, h2.symm, h3.symm, h4.symm⟩

theorem foldl_insertHSRow_no_key {post : List XRow} {r h s sc : String}
    (hno : ∀ r' ∈ post, ¬(full_region r' = r ∧ r'.housing_type = h ∧
      r'.subtype = s ∧ r'.scale = sc ∧ r'.hs_personnel.isSome = true ∧
      r'.hs_occupancy.isSome = true)) :
    ∀ t : HSTable, get_node4 (post.foldl insertHSRow t) r h s sc =
      get_node4 t r h s sc := by
  induction post with
  | nil => exact fun t => rfl
  | cons r' rest ih =>
    intro t
    rw [List.foldl_cons, ih fun x hx => hno x (List.mem_cons_of_mem _ hx)]
    cases hp' : r'.hs_personnel with
    | none => rw [insertHSRow_skip (Or.inl hp')]
    | some p' =>
      cases ho' : r'.hs_occupancy with
      | none => rw [insertHSRow_skip (Or.inr ho')]
      | some o' =>
        rw [insertHSRow_set hp' ho', get_node4_setLeaf_ne]
        rintro ⟨h1, h2, h3, h4⟩
        exact hno r' (List.mem_cons_self _ _)
          ⟨h1.symm, h2.symm, h3.symm, h4.symm, by simp [hp'], by simp [ho']⟩

/-- C9: a successful import reports `len(df)` — every row, duplicates
included.  For any row that is the last occurrence of its key, the rate
table holds its 2-decimal-rounded rates.  For any row with both high-school
cells after which no row repeats its key with both cells, the high-school
table holds its 2-decimal-rounded values.  A row with a blank high-school
cell contributes nothing to the high-school table, so such a duplicate
leaves the earlier high-school entry in place rather than overwriting it. -/
theorem c9_last_occurrence_wins (cols : List String) (s : AppState)
    (rows : List XRow)
    (hc : (required_cols.all fun c => decide (c ∈ cols)) = true) :
    (process_excel cols rows s).2 = ImportOutcome.ok rows.length ∧
    (∀ (pre post : List XRow) (row : XRow), rows = pre ++ row :: post →
      (∀ r' ∈ post, ¬(full_region r' = full_region row ∧
        r'.housing_type = row.housing_type ∧ r'.subtype = row.subtype ∧
        r'.scale = row.scale)) →
      get_node4 (process_excel cols rows s).1.rates (full_region row)
        row.housing_type row.subtype row.scale =
        some ⟨some (round2 row.elem), some (round2 row.mid)⟩) ∧
    (∀ (preH postH : List XRow) (rowH : XRow) (p o : ℚ),
      rows = preH ++ rowH :: postH →
      rowH.hs_personnel = some p → rowH.hs_occupancy = some o →
      (∀ r' ∈ postH, ¬(full_region r' = full_region rowH ∧
        r'.housing_type = rowH.housing_type ∧ r'.subtype = rowH.subtype ∧
        r'.scale = rowH.scale ∧ r'.hs_personnel.isSome = true ∧
        r'.hs_occupancy.isSome = true)) →
      get_node4 (process_excel cols rows s).1.high_school_rates
        (full_region rowH) rowH.housing_type rowH.subtype rowH.scale =
        some ⟨some (round2 p), some (round2 o)⟩) ∧
    (∀ (pre post : List XRow) (row : XRow), rows = pre ++ row :: post →
      row.hs_personnel = none ∨ row.hs_occupancy = none →
      (process_excel cols rows s).1.high_school_rates = buildHS (pre ++ post)) := by
  have hrates : (process_excel cols rows s).1.rates = buildRates rows := by
    simp [process_excel, hc]
  have hhs : (process_excel cols rows s).1.high_school_rates = buildHS rows := by
    simp [process_excel, hc]
  refine ⟨by simp [process_excel, hc], ?_, ?_, ?_⟩
  · rintro pre post row rfl hlast
    rw [hrates, buildRates, List.foldl_append, List.foldl_cons,
      foldl_insertRow_no_key hlast, insertRow, get_node4_setLeaf_self]
  · rintro preH postH rowH p o rfl hp ho hlastH
    rw [hhs, buildHS, List.foldl_append, List.foldl_cons,
      foldl_insertHSRow_no_key hlastH, insertHSRow_set hp ho,
      get_node4_setLeaf_self]
  · rintro pre post row rfl hblank
    rw [hhs, buildHS, List.foldl_append, List.foldl_cons,
      insertHSRow_skip hblank, ← List.foldl_append]
    rfl

/-- An early occurrence of the duplicated key, carrying both high-school
cells. -/
def rowDup1 : XRow :=
  ⟨"서울", "강남구", "아파트", "분양", "84㎡", 11, 5, some 0.6, some 10⟩

/-- The last occurrence of the duplicated key (서울 강남구, 아파트, 분양,
84㎡), with blank high-school cells. -/
def rowDupBlank : XRow :=
  ⟨"서울", "강남구", "아파트", "분양", "84㎡", 12.7, 6.3, none, none⟩

/-- Witness for C9 on a three-row import whose first two rows share a key:
the count is 3; the rate table holds the last duplicate's rates; the
high-school table holds the first row's values (the last occurrence with
both cells), because the blank-celled last duplicate contributes nothing. -/
theorem c9_last_occurrence_wins_witness :
    (process_excel required_cols [rowDup1, rowDupBlank, rowB] exampleState).2 =
      ImportOutcome.ok 3 ∧
    get_node4 (process_excel required_cols [rowDup1, rowDupBlank, rowB]
      exampleState).1.rates (full_region rowDupBlank) rowDupBlank.housing_type
      rowDupBlank.subtype rowDupBlank.scale =
      some ⟨some (round2 rowDupBlank.elem), some (round2 rowDupBlank.mid)⟩ ∧
    get_node4 (process_excel required_cols [rowDup1, rowDupBlank, rowB]
      exampleState).1.high_school_rates (full_region rowDup1)
      rowDup1.housing_type rowDup1.subtype rowDup1.scale =
      some ⟨some (round2 0.6), some (round2 10)⟩ ∧
    (process_excel required_cols [rowDup1, rowDupBlank, rowB]
      exampleState).1.high_school_rates = buildHS ([rowDup1] ++ [rowB]) := by
  have h := c9_last_occurrence_wins required_cols exampleState
    [rowDup1, rowDupBlank, rowB] (by decide)
  refine ⟨h.1, ?_, ?_, ?_⟩
  · exact h.2.1 [rowDup1] [rowB] rowDupBlank rfl (by decide)
  · exact h.2.2.1 [] [rowDupBlank, rowB] rowDup1 0.6 10 rfl rfl rfl (by decide)
  · exact h.2.2.2 [rowDup1] [rowB] rowDupBlank rfl (Or.inl rfl)

/-- The header of C6's scenario: the seven non-high-school columns only. -/
def sevenCols : List String :=
  ["시", "지역", "주택유형", "공급유형", "주택규모", "초등", "중등"]

/-- A row with both high-school cells blank. -/
def rowNoHS : XRow := ⟨"서울", "강남구", "아파트", "분양", "84㎡", 12.5, 6, none, none⟩

/-- C6 counterexample: a header containing only the seven non-high-school
columns is rejected by `process_excel` as a structural error (the source
requires all nine columns in the header), leaving the state unchanged —
the import does not succeed as the claim states. -/
theorem c6_optional_header_counterexample :
    (process_excel sevenCols [rowNoHS] exampleState).2 = ImportOutcome.colError ∧
    (process_excel sevenCols [rowNoHS] exampleState).1 = exampleState ∧
    ∀ n : ℕ, ImportOutcome.colError ≠ ImportOutcome.ok n := by
  have hfail : (required_cols.all fun c => decide (c ∈ sevenCols)) = false := by decide
  refine ⟨by simp [process_excel, hfail], by simp [process_excel, hfail], ?_⟩
  intro n hn
  cases hn

/-- C6 amended: with all nine columns present in the header, rows whose two
high-school cells are blank import successfully — the rate table is
populated (every processed row's key is queryable) while the high-school
table is simply left empty for those rows. -/
theorem c6_amended_blank_hs_rows (cols : List String) (s : AppState)
    (rows : List XRow) (row : XRow)
    (hc : (required_cols.all fun c => decide (c ∈ cols)) = true)
    (hrows : ∀ r ∈ rows, r.hs_personnel = none ∨ r.hs_occupancy = none)
    (hmem : row ∈ rows) :
    (process_excel cols rows s).2 = ImportOutcome.ok rows.length ∧
    (process_excel cols rows s).1.rates = buildRates rows ∧
    (get_node4 (process_excel cols rows s).1.rates (full_region row)
      row.housing_type row.subtype row.scale).isSome = true ∧
    (process_excel cols rows s).1.high_school_rates = [] := by
  have hrates : (process_excel cols rows s).1.rates = buildRates rows := by
    simp [process_excel, hc]
  refine ⟨by simp [process_excel, hc], hrates, ?_, ?_⟩
  · rw [hrates]
    exact foldl_insertRow_isSome_of_mem hmem []
  · have : (process_excel cols rows s).1.high_school_rates = buildHS rows := by
      simp [process_excel, hc]
    rw [this, buildHS, foldl_insertHSRow_skip_all hrows]

/-- Witness for C6's amended statement on a one-row import with blank
high-school cells. -/
theorem c6_amended_blank_hs_rows_witness :
    (process_excel required_cols [rowNoHS] exampleState).2 = ImportOutcome.ok 1 ∧
    (process_excel required_cols [rowNoHS] exampleState).1.rates =
      buildRates [rowNoHS] ∧
    (get_node4 (process_excel required_cols [rowNoHS] exampleState).1.rates
      (full_region rowNoHS) rowNoHS.housing_type rowNoHS.subtype
      rowNoHS.scale).isSome = true ∧
    (process_excel required_cols [rowNoHS] exampleState).1.high_school_rates = [] := by
  simpa using c6_amended_blank_hs_rows required_cols exampleState [rowNoHS] rowNoHS
    (by decide) (by decide) (by simp)

/-- C7: an import whose header misses any required column (e.g. `중등`) is
rejected; the error message's enumerated column list contains the missing
column, and the session state — both rate tables included — is returned
unchanged. -/
theorem c7_missing_required_column (cols : List String) (rows : List XRow)
    (s : AppState) (c : String) (hc : c ∈ required_cols) (hmiss : c ∉ cols) :
    process_excel cols rows s = (s, ImportOutcome.colError) ∧
    c ∈ import_error_named_cols := by
  have hfail : (required_cols.all fun c' => decide (c' ∈ cols)) = false := by
    rw [List.all_eq_false]
    exact ⟨c, hc, by simpa using hmiss⟩
  refine ⟨by simp [process_excel, hfail], ?_⟩
  simpa [import_error_named_cols, required_cols] using hc

/-- The header of C7's scenario: all columns except `중등`. -/
def colsNoMid : List String :=
  ["시", "지역", "주택유형", "공급유형", "주택규모", "초등",
   "고등-세대당 인구수", "고등-학생 점유율"]

/-- Witness for C7: dropping the `중등` column is rejected and leaves the
state intact. -/
theorem c7_missing_required_column_witness :
    process_excel colsNoMid [rowA] exampleState =
      (exampleState, ImportOutcome.colError) ∧
    "중등" ∈ import_error_named_cols :=
  c7_missing_required_column colsNoMid [rowA] exampleState "중등"
    (by decide) (by decide)

/-! The result-removal operation of the results tab. -/

/-- The source's removal comprehension: keep the results whose 0-based
position (from `enumerate`) is not among the selected indices. -/
def remove_at {α : Type} (results : List α) (indices : List ℕ) : List α :=
  (results.enum.filter fun p => decide (p.1 ∉ indices)).map Prod.snd

/-- Shifting an enumeration's start index by one is a map over the pairs. -/
theorem enumFrom_succ_eq_map {α : Type} (t : List α) :
    ∀ n : ℕ, List.enumFrom (n + 1) t =
      (List.enumFrom n t).map fun p => (p.1 + 1, p.2) := by
  induction t with
  | nil => intro n; rfl
  | cons a t ih =>
    intro n
    show (n + 1, a) :: List.enumFrom (n + 1 + 1) t = _
    rw [ih (n + 1)]
    rfl

/-- Filtering an enumeration by a position predicate and dropping the
indices selects exactly the elements at satisfying positions, in order. -/
theorem enum_filter_map_snd {α : Type} (l : List α) :
    ∀ P : ℕ → Bool,
      (l.enum.filter fun p => P p.1).map Prod.snd =
      ((List.range l.length).filter P).filterMap l.get? := by
  induction l with
  | nil => intro P; rfl
  | cons a t ih =>
    intro P
    show (((0, a) :: List.enumFrom 1 t).filter fun p => P p.1).map Prod.snd = _
    rw [List.filter_cons]
    have hshift : List.enumFrom 1 t = t.enum.map fun p => (p.1 + 1, p.2) :=
      enumFrom_succ_eq_map t 0
    have htail : ((List.enumFrom 1 t).filter fun p => P p.1).map Prod.snd =
        ((List.range t.length).filter fun i => P (i + 1)).filterMap t.get? := by
      rw [hshift, List.filter_map, List.map_map]
      have : (t.enum.filter fun p => P (p.1 + 1)).map Prod.snd =
          ((List.range t.length).filter fun i => P (i + 1)).filterMap t.get? :=
        ih fun i => P (i + 1)
      simpa [Function.comp_def] using this
    rw [List.length_cons, List.range_succ_eq_map, List.filter_cons]
    have hmap : ((List.range t.length).map Nat.succ).filter P =
        ((List.range t.length).filter (P ∘ Nat.succ)).map Nat.succ :=
      List.filter_map _ _
    have hpred : (P ∘ Nat.succ) = fun i => P (i + 1) := by
      funext i
      simp [Nat.succ_eq_add_one]
    have hget : ((a :: t).get? ∘ Nat.succ) = t.get? := by funext i; rfl
    have hgoal : (((List.range t.length).map Nat.succ).filter P).filterMap (a :: t).get? =
        ((List.range t.length).filter fun i => P (i + 1)).filterMap t.get? := by
      rw [hmap, List.filterMap_map, hget, hpred]
    by_cases hP : P 0 = true
    · simp only [hP, if_pos, List.map_cons, List.filterMap_cons, List.get?_cons_zero,
        htail, hgoal]
    · simp only [hP, Bool.false_eq_true, if_neg, not_false_iff, htail, hgoal]

/-- C8: `remove_at` removes exactly the entries whose current 0-based
position is in the index set, keeping the remaining entries in order (the
result is the in-order selection of the elements at unselected positions);
and indices are resolved against the ledger at the moment of removal, as in
the spec's scenario: removing {1,3} from a 5-element ledger keeps positions
0,2,4, and a subsequent removal of {0} removes the element originally at
position 0, not a stale index. -/
theorem c8_remove_at_positions :
    (∀ (α : Type) (l : List α) (indices : List ℕ),
      remove_at l indices =
        ((List.range l.length).filter fun i => decide (i ∉ indices)).filterMap l.get?) ∧
    (∀ (α : Type) (a b c d e : α),
      remove_at [a, b, c, d, e] [1, 3] = [a, c, e] ∧
      remove_at (remove_at [a, b, c, d, e] [1, 3]) [0] = [c, e]) := by
  constructor
  · intro α l indices
    exact enum_filter_map_snd l fun i => decide (i ∉ indices)
  · intro α a b c d e
    constructor <;> rfl

/-! The table export (the `rate_data` comprehension in `main`). -/

/-- Helper for Python `s.split(" ")`: split on every single space, keeping
empty segments; `acc` holds the current segment reversed. -/
def splitSpaceAux : List Char → List Char → List (List Char)
  | [], acc => [acc.reverse]
  | c :: rest, acc =>
    if c = ' ' then acc.reverse :: splitSpaceAux rest []
    else splitSpaceAux rest (c :: acc)

/-- Python `s.split(" ")` on the underlying character list. -/
def splitSpace (l : List Char) : List (List Char) := splitSpaceAux l []

/-- Python `" " in r`. -/
def containsSpace (r : String) : Bool := r.data.any fun c => c = ' '

/-- The export's `r.split(" ")[0] if " " in r else r`. -/
def export_city (r : String) : String :=
  if containsSpace r then String.mk ((splitSpace r.data).headD r.data) else r

/-- The export's `r.split(" ")[1] if " " in r else r` — the second
space-separated token (not the remainder after the first space). -/
def export_region (r : String) : String :=
  if containsSpace r then String.mk (((splitSpace r.data).drop 1).headD r.data) else r

/-- One row of the exported rate listing.  The four rate columns hold the
numeric value denoted by the 2-decimal `format_percentage` text. -/
structure ExportRow where
  city : String
  region : String
  housing_type : String
  subtype : String
  scale : String
  elem2 : ℚ
  mid2 : ℚ
  hs_personnel2 : ℚ
  hs_occupancy2 : ℚ
deriving DecidableEq

/-- Numeric value denoted by `format_percentage(x)` (an `f"{x:.2f}"`
string): the argument rounded to 2 decimal places. -/
def format2val (q : ℚ) : ℚ := round2 q

/-- The export row produced for one leaf `(r, h, s, sc) ↦ v` of the rate
table, including the chained high-school lookup with its `"0.00"`
fallback. -/
def exportRowOf (hs : HSTable) (r h s sc : String) (v : REntry) : ExportRow :=
  { city := export_city r
    region := export_region r
    housing_type := h
    subtype := s
    scale := sc
    elem2 := format2val (v.elem.getD 0)
    mid2 := format2val (v.mid.getD 0)
    hs_personnel2 :=
      match get_node4 hs r h s sc with
      | some hv => if hv.isTruthy then format2val (hv.personnel.getD 0) else 0
      | none => 0
    hs_occupancy2 :=
      match get_node4 hs r h s sc with
      | some hv => if hv.isTruthy then format2val (hv.occupancy.getD 0) else 0
      | none => 0 }

/-- The `rate_data` comprehension of `main`: one export row per leaf of the
rate table, in nested iteration order. -/
def rate_data (rates : RateTable) (hs : HSTable) : List ExportRow :=
  rates.bind fun rp =>
    rp.2.bind fun tp =>
      tp.2.bind fun sp =>
        sp.2.map fun scp => exportRowOf hs rp.1 tp.1 sp.1 scp.1 scp.2

/-! String facts for the export's split-derived city/region fields. -/

theorem splitSpaceAux_no_space {b : List Char} (hb : ' ' ∉ b) :
    ∀ acc, splitSpaceAux b acc = [acc.reverse ++ b] := by
  induction b with
  | nil => intro acc; simp [splitSpaceAux]
  | cons c b ih =>
    intro acc
    have hc : ¬c = ' ' := fun h => hb (h ▸ List.mem_cons_self _ _)
    rw [splitSpaceAux, if_neg hc, ih (fun h => hb (List.mem_cons_of_mem _ h))]
    simp

theorem splitSpaceAux_append {a : List Char} (ha : ' ' ∉ a) (b : List Char) :
    ∀ acc, splitSpaceAux (a ++ ' ' :: b) acc =
      (acc.reverse ++ a) :: splitSpaceAux b [] := by
  induction a with
  | nil => intro acc; simp [splitSpaceAux]
  | cons c a ih =>
    intro acc
    have hc : ¬c = ' ' := fun h => ha (h ▸ List.mem_cons_self _ _)
    rw [List.cons_append, splitSpaceAux, if_neg hc,
      ih (fun h => ha (List.mem_cons_of_mem _ h))]
    simp

theorem splitSpace_combined {c d : List Char} (hc : ' ' ∉ c) (hd : ' ' ∉ d) :
    splitSpace (c ++ ' ' :: d) = [c, d] := by
  unfold splitSpace
  rw [splitSpaceAux_append hc d [], splitSpaceAux_no_space hd []]
  simp

theorem data_combined (c d : String) :
    (c ++ " " ++ d).data = c.data ++ ' ' :: d.data := by
  simp [String.data_append]

theorem containsSpace_combined (c d : String) :
    containsSpace (c ++ " " ++ d) = true := by
  unfold containsSpace
  rw [data_combined]
  simp

theorem export_city_combined {c d : String} (hc : ' ' ∉ c.data)
    (hd : ' ' ∉ d.data) : export_city (c ++ " " ++ d) = c := by
  unfold export_city
  rw [containsSpace_combined, if_pos rfl, data_combined,
    splitSpace_combined hc hd]
  rfl

theorem export_region_combined {c d : String} (hc : ' ' ∉ c.data)
    (hd : ' ' ∉ d.data) : export_region (c ++ " " ++ d) = d := by
  unfold export_region
  rw [containsSpace_combined, if_pos rfl, data_combined,
    splitSpace_combined hc hd]
  rfl

theorem round2_round2 (q : ℚ) : round2 (round2 q) = round2 q := by
  unfold round2
  have h : ((pyRound (q * 100) : ℚ) / 100) * 100 = (pyRound (q * 100) : ℚ) := by
    field_simp
  rw [h, pyRound_intCast]

/-- The key path `(r, h, s, sc)` carries value `v` somewhere in the nested
structure (the enumeration relation of the export loop). -/
def HasLeaf {β : Type} (t : Table β) (r h s sc : String) (v : β) : Prop :=
  ∃ d1, (r, d1) ∈ t ∧ ∃ d2, (h, d2) ∈ d1 ∧ ∃ d3, (s, d3) ∈ d2 ∧ (sc, v) ∈ d3

theorem not_hasLeaf_nil {β : Type} {r h s sc : String} {v : β} :
    ¬HasLeaf ([] : Table β) r h s sc v := by
  rintro ⟨d1, hd1, -⟩
  cases hd1

theorem hasLeaf_of_get_node4 {β : Type} {t : Table β} {r h s sc : String} {v : β}
    (hv : get_node4 t r h s sc = some v) : HasLeaf t r h s sc v := by
  unfold get_node4 at hv
  rcases h1 : alFind t r with - | d1
  · rw [h1] at hv; cases hv
  · rw [h1] at hv
    simp only [Option.some_bind] at hv
    rcases h2 : alFind d1 h with - | d2
    · rw [h2] at hv; cases hv
    · rw [h2] at hv
      simp only [Option.some_bind] at hv
      rcases h3 : alFind d2 s with - | d3
      · rw [h3] at hv; cases hv
      · rw [h3] at hv
        simp only [Option.some_bind] at hv
        exact ⟨d1, alFind_mem h1, d2, alFind_mem h2, d3, alFind_mem h3, alFind_mem hv⟩

theorem hasLeaf_level2 {β : Type} {t : Table β} {R h s sc : String} {v : β}
    {d2 : Dict (Dict β)} {d3 : Dict β}
    (hm : (h, d2) ∈ (alFind t R).getD [])
    (h3 : (s, d3) ∈ d2) (hv : (sc, v) ∈ d3) : HasLeaf t R h s sc v := by
  rcases h1 : alFind t R with - | d1
  · rw [h1] at hm; cases hm
  · rw [h1] at hm
    simp only [Option.getD_some] at hm
    exact ⟨d1, alFind_mem h1, d2, hm, d3, h3, hv⟩

theorem hasLeaf_level3 {β : Type} {t : Table β} {R H s sc : String} {v : β}
    {d3 : Dict β}
    (hm : (s, d3) ∈ (alFind ((alFind t R).getD []) H).getD [])
    (hv : (sc, v) ∈ d3) : HasLeaf t R H s sc v := by
  rcases h1 : alFind t R with - | d1
  · rw [h1] at hm; cases hm
  · rw [h1] at hm
    simp only [Option.getD_some] at hm
    rcases h2 : alFind d1 H with - | d2
    · rw [h2] at hm; cases hm
    · rw [h2] at hm
      simp only [Option.getD_some] at hm
      exact ⟨d1, alFind_mem h1, d2, alFind_mem h2, d3, hm, hv⟩

theorem hasLeaf_level4 {β : Type} {t : Table β} {R H S sc : String} {v : β}
    (hm : (sc, v) ∈ (alFind ((alFind ((alFind t R).getD []) H).getD []) S).getD []) :
    HasLeaf t R H S sc v := by
  rcases h1 : alFind t R with - | d1
  · rw [h1] at hm; cases hm
  · rw [h1] at hm
    simp only [Option.getD_some] at hm
    rcases h2 : alFind d1 H with - | d2
    · rw [h2] at hm; cases hm
    · rw [h2] at hm
      simp only [Option.getD_some] at hm
      rcases h3 : alFind d2 S with - | d3
      · rw [h3] at hm; cases hm
      · rw [h3] at hm
        simp only [Option.getD_some] at hm
        exact ⟨d1, alFind_mem h1, d2, alFind_mem h2, d3, alFind_mem h3, hm⟩

/-- Any leaf of `setLeaf t R H S SC V` is either the stored leaf or a leaf
already in `t`. -/
theorem hasLeaf_setLeaf {β : Type} {t : Table β} {R H S SC : String} {V : β}
    {r h s sc : String} {v : β}
    (hl : HasLeaf (setLeaf t R H S SC V) r h s sc v) :
    (r = R ∧ h = H ∧ s = S ∧ sc = SC ∧ v = V) ∨ HasLeaf t r h s sc v := by
  obtain ⟨d1, hd1, d2, hd2, d3, hd3, hv⟩ := hl
  have hsl : setLeaf t R H S SC V =
      alAssign t R
        (alAssign ((alFind t R).getD []) H
          (alAssign ((alFind ((alFind t R).getD []) H).getD []) S
            (alAssign ((alFind ((alFind ((alFind t R).getD []) H).getD []) S).getD [])
              SC V))) := rfl
  rw [hsl] at hd1
  rcases mem_of_mem_alAssign hd1 with he | hm
  · injection he with hr hd
    subst hr
    subst hd
    rcases mem_of_mem_alAssign hd2 with he2 | hm2
    · injection he2 with hh hd2e
      subst hh
      subst hd2e
      rcases mem_of_mem_alAssign hd3 with he3 | hm3
      · injection he3 with hsE hd3e
        subst hsE
        subst hd3e
        rcases mem_of_mem_alAssign hv with he4 | hm4
        · injection he4 with hscE hvE
          exact Or.inl ⟨rfl, rfl, rfl, hscE, hvE⟩
        · exact Or.inr (hasLeaf_level4 hm4)
      · exact Or.inr (hasLeaf_level3 hm3 hv)
    · exact Or.inr (hasLeaf_level2 hm2 hd3 hv)
  · exact Or.inr ⟨d1, hm, d2, hd2, d3, hd3, hv⟩

/-- Any leaf of the table built by the import fold comes from some processed
row (or from the start table). -/
theorem hasLeaf_foldl_insertRow (rows : List XRow) :
    ∀ (t : RateTable) (r h s sc : String) (v : REntry),
      HasLeaf (rows.foldl insertRow t) r h s sc v →
      (∃ row ∈ rows, full_region row = r ∧ row.housing_type = h ∧
        row.subtype = s ∧ row.scale = sc ∧
        v = ⟨some (round2 row.elem), some (round2 row.mid)⟩) ∨
      HasLeaf t r h s sc v := by
  induction rows with
  | nil => exact fun t r h s sc v hv => Or.inr hv
  | cons row rest ih =>
    intro t r h s sc v hv
    rw [List.foldl_cons] at hv
    rcases ih _ _ _ _ _ _ hv with ⟨row', hm, hk⟩ | hbase
    · exact Or.inl ⟨row', List.mem_cons_of_mem _ hm, hk⟩
    · rw [insertRow] at hbase
      rcases hasLeaf_setLeaf hbase with ⟨h1, h2, h3, h4, h5⟩ | hold
      · exact Or.inl ⟨row, List.mem_cons_self _ _,
          h1.symm, h2.symm, h3.symm, h4.symm, h5⟩
      · exact Or.inr hold

/-- Membership in the export listing is exactly leaf-hood in the rate
table. -/
theorem mem_rate_data_iff {rates : RateTable} {hs : HSTable} {er : ExportRow} :
    er ∈ rate_data rates hs ↔
      ∃ r h s sc v, HasLeaf rates r h s sc v ∧ er = exportRowOf hs r h s sc v := by
  unfold rate_data HasLeaf
  constructor
  · intro hm
    rcases List.mem_bind.mp hm with ⟨rp, hrp, hm1⟩
    rcases List.mem_bind.mp hm1 with ⟨tp, htp, hm2⟩
    rcases List.mem_bind.mp hm2 with ⟨sp, hsp, hm3⟩
    rcases List.mem_map.mp hm3 with ⟨scp, hscp, heq⟩
    exact ⟨rp.1, tp.1, sp.1, scp.1, scp.2,
      ⟨rp.2, by simpa using hrp, tp.2, by simpa using htp, sp.2, by simpa using hsp,
        by simpa using hscp⟩, heq.symm⟩
  · rintro ⟨r, h, s, sc, v, ⟨d1, hd1, d2, hd2, d3, hd3, hv⟩, rfl⟩
    exact List.mem_bind.mpr ⟨(r, d1), hd1, List.mem_bind.mpr ⟨(h, d2), hd2,
      List.mem_bind.mpr ⟨(s, d3), hd3, List.mem_map.mpr ⟨(sc, v), hv, rfl⟩⟩⟩⟩

/-- C3 amended: for a well-formed row set whose city and district values
contain no space, exporting right after importing reproduces exactly the
original set of (region, housing_type, supply_type, scale) leaves — the
exported city/region fields being the first and second space-separated
tokens of the region key — and every exported elementary/middle rate equals
the original value rounded to 2 decimal places. -/
theorem c3_export_import_roundtrip (cols : List String) (rows : List XRow)
    (s : AppState) (R H S SC : String) (er : ExportRow)
    (hc : (required_cols.all fun c => decide (c ∈ cols)) = true)
    (hns : ∀ row ∈ rows, ' ' ∉ row.city.data ∧ ' ' ∉ row.region.data) :
    ((∃ e ∈ rate_data (process_excel cols rows s).1.rates
        (process_excel cols rows s).1.high_school_rates,
        e.city ++ " " ++ e.region = R ∧ e.housing_type = H ∧
        e.subtype = S ∧ e.scale = SC) ↔
      ∃ row ∈ rows, full_region row = R ∧ row.housing_type = H ∧
        row.subtype = S ∧ row.scale = SC) ∧
    (er ∈ rate_data (process_excel cols rows s).1.rates
        (process_excel cols rows s).1.high_school_rates →
      ∃ row ∈ rows, full_region row = er.city ++ " " ++ er.region ∧
        row.housing_type = er.housing_type ∧ row.subtype = er.subtype ∧
        row.scale = er.scale ∧ er.elem2 = round2 row.elem ∧
        er.mid2 = round2 row.mid) := by
  have hrates : (process_excel cols rows s).1.rates = buildRates rows := by
    simp [process_excel, hc]
  have hhs : (process_excel cols rows s).1.high_school_rates = buildHS rows := by
    simp [process_excel, hc]
  rw [hrates, hhs]
  have hfwd : ∀ e ∈ rate_data (buildRates rows) (buildHS rows),
      ∃ row ∈ rows, full_region row = e.city ++ " " ++ e.region ∧
        row.housing_type = e.housing_type ∧ row.subtype = e.subtype ∧
        row.scale = e.scale ∧ e.elem2 = round2 row.elem ∧
        e.mid2 = round2 row.mid := by
    intro e he
    rcases mem_rate_data_iff.mp he with ⟨r, h, sNm, sc, v, hl, rfl⟩
    rcases hasLeaf_foldl_insertRow rows [] r h sNm sc v hl with
      ⟨row, hm, hk1, hk2, hk3, hk4, hk5⟩ | habs
    · subst hk1
      refine ⟨row, hm, ?_, hk2, hk3, hk4, ?_, ?_⟩
      · show full_region row =
          export_city (full_region row) ++ " " ++ export_region (full_region row)
        rw [show full_region row = row.city ++ " " ++ row.region from rfl,
          export_city_combined (hns row hm).1 (hns row hm).2,
          export_region_combined (hns row hm).1 (hns row hm).2]
      · show format2val (v.elem.getD 0) = round2 row.elem
        rw [hk5]
        simp [format2val, round2_round2]
      · show format2val (v.mid.getD 0) = round2 row.mid
        rw [hk5]
        simp [format2val, round2_round2]
    · exact (not_hasLeaf_nil habs).elim
  refine ⟨⟨?_, ?_⟩, fun he => hfwd er he⟩
  · rintro ⟨e, he, hkey, hh, hsub, hscale⟩
    rcases hfwd e he with ⟨row, hm, ha, hb, hcx, hd, -, -⟩
    exact ⟨row, hm, by rw [ha, hkey], by rw [hb, hh], by rw [hcx, hsub],
      by rw [hd, hscale]⟩
  · rintro ⟨row, hm, hk1, hk2, hk3, hk4⟩
    have hsome := foldl_insertRow_isSome_of_mem hm ([])
    obtain ⟨v, hv⟩ := Option.isSome_iff_exists.mp hsome
    have hl := hasLeaf_of_get_node4 hv
    refine ⟨exportRowOf (buildHS rows) (full_region row) row.housing_type
        row.subtype row.scale v,
      mem_rate_data_iff.mpr ⟨_, _, _, _, _, hl, rfl⟩, ?_, hk2, hk3, hk4⟩
    show export_city (full_region row) ++ " " ++ export_region (full_region row) = R
    rw [show full_region row = row.city ++ " " ++ row.region from rfl,
      export_city_combined (hns row hm).1 (hns row hm).2,
      export_region_combined (hns row hm).1 (hns row hm).2]
    exact hk1

/-- Witness row for C3's amended round-trip. -/
def rowC3 : XRow :=
  ⟨"서울", "강남구", "아파트", "분양", "84㎡", 12.505, 6.004, some 0.8, some 15⟩

/-- Witness for C3: the leaf imported from `rowC3` reappears in the export
with its recombined region key. -/
theorem c3_export_import_roundtrip_witness :
    ∃ e ∈ rate_data (process_excel required_cols [rowC3] exampleState).1.rates
      (process_excel required_cols [rowC3] exampleState).1.high_school_rates,
      e.city ++ " " ++ e.region = "서울 강남구" ∧ e.housing_type = "아파트" ∧
      e.subtype = "분양" ∧ e.scale = "84㎡" := by
  have h := c3_export_import_roundtrip required_cols [rowC3] exampleState
    "서울 강남구" "아파트" "분양" "84㎡"
    ⟨"", "", "", "", "", 0, 0, 0, 0⟩ (by decide) (by decide)
  exact h.1.mpr ⟨rowC3, List.mem_cons_self _ _, rfl, rfl, rfl, rfl⟩

/-- A row whose district value contains a space. -/
def rowSp : XRow :=
  ⟨"서울", "강남구 북부", "아파트", "분양", "84㎡", 12.5, 6, none, none⟩

/-- C3 counterexample: the export derives the region field as the second
space-separated token (`r.split(" ")[1]`), not by the split-on-first-space
rule, so a district containing a space is truncated and the recombined
region key no longer matches the imported leaf. -/
theorem c3_roundtrip_counterexample :
    (rate_data (process_excel required_cols [rowSp] exampleState).1.rates
      (process_excel required_cols [rowSp] exampleState).1.high_school_rates).map
        (fun e => (e.city, e.region)) = [("서울", "강남구")] ∧
    full_region rowSp = "서울 강남구 북부" ∧
    ("강남구" : String) ≠ "강남구 북부" ∧
    ("서울" ++ " " ++ "강남구" : String) ≠ full_region rowSp := by
  refine ⟨?_, rfl, by decide, by decide⟩
  rfl

end StudentNumber
